import Mathlib

/-!
Shallow embedding of `src/observability_utils/tracing/asserting_exporter.py`.

The Python module defines a test-support span exporter
(`JsonObjectSpanExporter`) and a context-manager assertion helper
(`asserting_span_exporter`).  The exporter's mutable state is two fields:
`service_name` and a capture cell `top_span : Future | None`.  The `export`
method runs

    if self.top_span is None or self.top_span.done():
        self.top_span = Future()
        self.top_span.set_result(spans[-1])
    return SpanExportResult.SUCCESS

and `force_flush` returns `True` unconditionally.  The helper, after the
wrapped block, runs

    if exporter.top_span is not None:
        span = exporter.top_span.result(timeout=5.0)
        assert span.name == func_name
        for param in span_args:
            assert param in span.attributes

We embed the state as a structure, `concurrent.futures.Future` as a cell
that either holds a result or is still unset (in this sequential model an
unset future never completes, so a blocking read on it times out), and the
Python exceptions as explicit error values.  Note the statement order in
`export`: `self.top_span = Future()` happens before `spans[-1]` is read, so
an empty batch leaves a fresh, never-completed future behind and raises
`IndexError`.
-/

namespace ObservabilityUtils

/-- Scalar value stored under a span attribute key (OTel attribute values are
scalars or lists of scalars; the helper only ever tests key membership, so a
few representative scalar shapes suffice). -/
inductive AttrValue where
  | strV : String → AttrValue
  | intV : Int → AttrValue
  | boolV : Bool → AttrValue
deriving DecidableEq

/-- A finished span as the exporter sees it: a name and an attribute mapping
(string keys to scalar values), both read-only for this module. -/
structure ReadableSpan where
  name : String
  attributes : List (String × AttrValue)
deriving DecidableEq

/-- Model of `concurrent.futures.Future` as used here: a one-shot result
cell.  `result? = none` is a future whose result was never set. -/
structure Future where
  result? : Option ReadableSpan
deriving DecidableEq

/-- A freshly constructed `Future()`. -/
def Future.fresh : Future := ⟨none⟩

/-- `Future.done()`: true once the result has been set. -/
def Future.done (f : Future) : Bool := f.result?.isSome

/-- `Future.set_result(s)`. -/
def Future.set_result (_f : Future) (s : ReadableSpan) : Future := ⟨some s⟩

/-- Python exceptions that the embedded code can raise. -/
inductive PyError where
  | indexError
  | timeoutError
deriving DecidableEq

/-- Blocking `Future.result(timeout)`.  In this sequential model a future
whose result was never set can never become done while the caller waits, so
the read raises the timeout error; a completed future returns at once. -/
def Future.result (f : Future) (_timeout_secs : Int) : Except PyError ReadableSpan :=
  match f.result? with
  | some s => Except.ok s
  | none => Except.error PyError.timeoutError

/-- The exporter contract's per-call verdict. -/
inductive SpanExportResult where
  | SUCCESS
  | FAILURE
deriving DecidableEq

/-- Mutable state of a `JsonObjectSpanExporter`: `__init__` stores
`service_name` and initialises the capture cell `top_span` to `None`; the
`out` and `formatter` constructor arguments are never stored. -/
structure JsonObjectSpanExporter where
  service_name : Option String
  top_span : Option Future
deriving DecidableEq

/-- `JsonObjectSpanExporter.__init__(service_name, out, formatter)`: the
`out` and `formatter` parameters are accepted and discarded. -/
def JsonObjectSpanExporter.init (service_name : Option String)
    (_out : Option Nat) (_formatter : Option (ReadableSpan → String)) :
    JsonObjectSpanExporter :=
  ⟨service_name, none⟩

/-- The guard of `export`: `self.top_span is None or self.top_span.done()`. -/
def cellReplaceable (o : Option Future) : Bool :=
  match o with
  | none => true
  | some f => f.done

/-- `export(spans)`: when the capture cell is `None` or its future is done,
store a fresh future completed with `spans[-1]`; always return `SUCCESS`.
On an empty batch the guard has already replaced `top_span` with a fresh
(incomplete) future when `spans[-1]` raises `IndexError`. -/
def JsonObjectSpanExporter.export (e : JsonObjectSpanExporter) (spans : List ReadableSpan) :
    JsonObjectSpanExporter × Except PyError SpanExportResult :=
  if cellReplaceable e.top_span then
    match spans.getLast? with
    | some s =>
        (⟨e.service_name, some (Future.fresh.set_result s)⟩,
          Except.ok SpanExportResult.SUCCESS)
    | none =>
        (⟨e.service_name, some Future.fresh⟩, Except.error PyError.indexError)
  else
    (e, Except.ok SpanExportResult.SUCCESS)

/-- `force_flush(timeout_millis)`: unconditionally `True`. -/
def force_flush (_e : JsonObjectSpanExporter) (_timeout_millis : Int) : Bool :=
  true

/-- Outcome of running the assertion helper's exit block. -/
inductive AssertOutcome where
  | passed
  | assertionError
  | timeoutError
deriving DecidableEq

/-- Key membership in the attribute mapping (`param in span.attributes`
tests keys of the mapping, not values). -/
def hasKey (attrs : List (String × AttrValue)) (k : String) : Bool :=
  attrs.any (fun kv => kv.1 = k)

/-- Exit block of the `asserting_span_exporter` context manager: skip when
`top_span` is `None`; otherwise block on the future's result (timeout 5.0),
then assert the span name equals `func_name` and every name in `span_args`
occurs among the span's attribute keys. -/
def asserting_span_exporter (e : JsonObjectSpanExporter) (func_name : String)
    (span_args : List String) : AssertOutcome :=
  match e.top_span with
  | none => AssertOutcome.passed
  | some f =>
      match f.result 5 with
      | Except.error _ => AssertOutcome.timeoutError
      | Except.ok span =>
          if span.name = func_name ∧ span_args.all (hasKey span.attributes) then
            AssertOutcome.passed
          else
            AssertOutcome.assertionError

/-- One observable operation on an exporter. -/
inductive Op where
  | exportOp : List ReadableSpan → Op
  | flushOp : Int → Op
  | assertOp : String → List String → Op

deriving instance DecidableEq for Except

/-- The visible result of one operation. -/
inductive OpResult where
  | exported : Except PyError SpanExportResult → OpResult
  | flushed : Bool → OpResult
  | asserted : AssertOutcome → OpResult
deriving DecidableEq

/-- Step an exporter by one operation.  `force_flush` and the assertion
helper leave the exporter state untouched (the helper only reads the
future, which does not change its state). -/
def runOp (e : JsonObjectSpanExporter) (op : Op) :
    JsonObjectSpanExporter × OpResult :=
  match op with
  | Op.exportOp spans =>
      ((e.export spans).1, OpResult.exported (e.export spans).2)
  | Op.flushOp t => (e, OpResult.flushed (force_flush e t))
  | Op.assertOp fn args =>
      (e, OpResult.asserted (asserting_span_exporter e fn args))

/-- Run a sequence of operations, collecting every result. -/
def runOps (e : JsonObjectSpanExporter) (ops : List Op) :
    JsonObjectSpanExporter × List OpResult :=
  match ops with
  | [] => (e, [])
  | op :: rest =>
      ((runOps (runOp e op).1 rest).1,
        (runOp e op).2 :: (runOps (runOp e op).1 rest).2)

/-- The completed-cell invariant: whenever `top_span` holds a future, that
future is already done. -/
def completedInv (e : JsonObjectSpanExporter) : Bool :=
  match e.top_span with
  | none => true
  | some f => f.done

/-- Concrete spans and exporter used by witnesses and counterexamples. -/
def spanA : ReadableSpan := ⟨"first_work", [("x", AttrValue.intV 1)]⟩

/-- A second concrete span, distinct from `spanA`. -/
def spanB : ReadableSpan := ⟨"second_work", [("y", AttrValue.intV 2)]⟩

/-- A freshly constructed exporter, as in the tests. -/
def e0 : JsonObjectSpanExporter :=
  JsonObjectSpanExporter.init (some "Test") none none

/-- C2: for every non-empty batch passed to `export` while the capture cell
is empty, the cell afterwards holds a completed future whose result is the
last element of the batch (it is done and a blocking read returns it). -/
theorem export_into_empty_cell_captures_last
    (e : JsonObjectSpanExporter) (spans : List ReadableSpan) (s : ReadableSpan)
    (he : e.top_span = none) (hs : spans.getLast? = some s) :
    (e.export spans).1.top_span = some ⟨some s⟩ ∧
      (⟨some s⟩ : Future).done = true ∧
      (⟨some s⟩ : Future).result 5 = Except.ok s := by
  unfold JsonObjectSpanExporter.export
  rw [he]
  simp [cellReplaceable, hs, Future.fresh, Future.set_result, Future.done,
    Future.result]

/-- Witness for C2 at a fresh exporter and the one-span batch `[spanA]`. -/
theorem export_into_empty_cell_captures_last_witness :
    e0.top_span = none ∧ ([spanA].getLast? = some spanA) ∧
      ((e0.export [spanA]).1.top_span = some ⟨some spanA⟩ ∧
        (⟨some spanA⟩ : Future).done = true ∧
        (⟨some spanA⟩ : Future).result 5 = Except.ok spanA) :=
  ⟨rfl, rfl, export_into_empty_cell_captures_last e0 [spanA] spanA rfl rfl⟩

/-- C5: when `top_span` is still `None` on scope exit, the assertion helper
performs no assertion and raises nothing, for every expected name and every
list of expected attribute keys. -/
theorem assert_soft_pass_when_no_capture
    (e : JsonObjectSpanExporter) (fn : String) (args : List String)
    (he : e.top_span = none) :
    asserting_span_exporter e fn args = AssertOutcome.passed := by
  simp [asserting_span_exporter, he]

/-- Witness for C5 at a fresh exporter with a nonmatching expectation. -/
theorem assert_soft_pass_when_no_capture_witness :
    e0.top_span = none ∧
      asserting_span_exporter e0 "missing_fn" ["x", "y"] =
        AssertOutcome.passed :=
  ⟨rfl, assert_soft_pass_when_no_capture e0 "missing_fn" ["x", "y"] rfl⟩

/-- C6: `export` on a non-empty batch returns `SUCCESS` without raising, in
every exporter state, and `force_flush` returns `true` for every timeout
argument and every state. -/
theorem export_success_and_flush_true
    (e : JsonObjectSpanExporter) (spans : List ReadableSpan) (t : Int)
    (hs : spans ≠ []) :
    (e.export spans).2 = Except.ok SpanExportResult.SUCCESS ∧
      force_flush e t = true := by
  refine ⟨?_, rfl⟩
  rcases hgl : spans.getLast? with _ | s
  · exact absurd (List.getLast?_eq_none_iff.mp hgl) hs
  · unfold JsonObjectSpanExporter.export
    rw [hgl]
    split <;> rfl

/-- Witness for C6 at a state whose cell already holds a completed span. -/
theorem export_success_and_flush_true_witness :
    ([spanB] ≠ ([] : List ReadableSpan)) ∧
      (((e0.export [spanA]).1.export [spanB]).2 =
          Except.ok SpanExportResult.SUCCESS ∧
        force_flush (e0.export [spanA]).1 30000 = true) :=
  ⟨List.cons_ne_nil spanB [],
    export_success_and_flush_true (e0.export [spanA]).1 [spanB] 30000
      (List.cons_ne_nil spanB [])⟩

/-- C7: `export` can only change the capture cell: the `service_name` field
is preserved for every state and every batch (the state has no other field,
and the batch is a read-only value in this embedding). -/
theorem export_preserves_service_name
    (e : JsonObjectSpanExporter) (spans : List ReadableSpan) :
    (e.export spans).1.service_name = e.service_name := by
  unfold JsonObjectSpanExporter.export
  split
  · cases hgl : spans.getLast? <;> rfl
  · rfl

/-- C8: calling `export` with an empty batch while the cell is empty or its
stored result is completed raises `IndexError` rather than returning
`SUCCESS`, and leaves behind a fresh, never-completed future. -/
theorem export_empty_batch_raises_index_error
    (e : JsonObjectSpanExporter) (h : cellReplaceable e.top_span = true) :
    (e.export []).2 = Except.error PyError.indexError ∧
      (e.export []).1.top_span = some Future.fresh ∧
      Future.fresh.done = false := by
  simp [JsonObjectSpanExporter.export, h, Future.fresh, Future.done]

/-- Witness for C8 at a fresh exporter, whose cell is empty. -/
theorem export_empty_batch_raises_index_error_witness :
    cellReplaceable e0.top_span = true ∧
      ((e0.export []).2 = Except.error PyError.indexError ∧
        (e0.export []).1.top_span = some Future.fresh ∧
        Future.fresh.done = false) :=
  ⟨rfl, export_empty_batch_raises_index_error e0 rfl⟩

/-- C10: the `out` and `formatter` constructor arguments affect nothing: two
exporters built from the same `service_name` but arbitrary values of the
other two parameters give identical results and identical final states on
every sequence of export, flush and assertion-helper operations. -/
theorem out_and_formatter_unobservable
    (sn : Option String) (o1 o2 : Option Nat)
    (f1 f2 : Option (ReadableSpan → String)) (ops : List Op) :
    runOps (JsonObjectSpanExporter.init sn o1 f1) ops =
      runOps (JsonObjectSpanExporter.init sn o2 f2) ops := rfl

/-- C1 (counterexample): the claim that a second `export` leaves the cell
holding the first batch's last span while that result is unconsumed is
false: exporting `[spanA]` and then `[spanB]` (with nothing consumed in
between) leaves `top_span` holding `spanB`, not `spanA`, because `export`
completes the future it stores, so the stored future always reads as done
and the guard always allows the overwrite. -/
theorem second_export_clobbers_counterexample :
    ((e0.export [spanA]).1.export [spanB]).1.top_span ≠ some ⟨some spanA⟩ ∧
      ((e0.export [spanA]).1.export [spanB]).1.top_span = some ⟨some spanB⟩ := by
  constructor
  · decide
  · rfl

/-- C1 (amended): whenever the completed-cell invariant holds, a pair of
consecutive `export` calls on non-empty batches always ends with the cell
holding the last span of the SECOND batch: the second export overwrites the
first result whether or not it was consumed. -/
theorem second_export_always_overwrites
    (e : JsonObjectSpanExporter) (spans1 spans2 : List ReadableSpan)
    (s1 s2 : ReadableSpan) (hinv : completedInv e = true)
    (h1 : spans1.getLast? = some s1) (h2 : spans2.getLast? = some s2) :
    ((e.export spans1).1.export spans2).1.top_span = some ⟨some s2⟩ := by
  have hc : cellReplaceable e.top_span = true := hinv
  have step1 : (e.export spans1).1 = ⟨e.service_name, some ⟨some s1⟩⟩ := by
    simp [JsonObjectSpanExporter.export, hc, h1, Future.fresh, Future.set_result]
  rw [step1]
  simp [JsonObjectSpanExporter.export, cellReplaceable, Future.done, h2,
    Future.fresh, Future.set_result]

/-- Witness for the amended C1, exporting `[spanA]` then `[spanB]` from a
fresh exporter. -/
theorem second_export_always_overwrites_witness :
    completedInv e0 = true ∧ ([spanA].getLast? = some spanA) ∧
      ([spanB].getLast? = some spanB) ∧
      ((e0.export [spanA]).1.export [spanB]).1.top_span = some ⟨some spanB⟩ :=
  ⟨rfl, rfl, rfl,
    second_export_always_overwrites e0 [spanA] [spanB] spanA spanB rfl rfl rfl⟩

/-- C3: consuming the stored result through the assertion helper changes no
exporter state, and the next `export` on a non-empty batch overwrites the
cell with a completed future holding the new batch's last span. -/
theorem export_overwrites_after_consume
    (e : JsonObjectSpanExporter) (s0 s : ReadableSpan)
    (fn : String) (args : List String) (spans : List ReadableSpan)
    (h : e.top_span = some ⟨some s0⟩) (hs : spans.getLast? = some s) :
    (runOp e (Op.assertOp fn args)).1 = e ∧
      ((runOp e (Op.assertOp fn args)).1.export spans).1.top_span =
        some ⟨some s⟩ := by
  refine ⟨rfl, ?_⟩
  show (e.export spans).1.top_span = some ⟨some s⟩
  have hc : cellReplaceable e.top_span = true := by
    rw [h]; rfl
  simp [JsonObjectSpanExporter.export, hc, hs, Future.fresh, Future.set_result]

/-- Witness for C3: the helper consumes `spanA`, then `[spanB]` is
exported and the cell holds `spanB`. -/
theorem export_overwrites_after_consume_witness :
    ((e0.export [spanA]).1.top_span = some ⟨some spanA⟩) ∧
      ([spanB].getLast? = some spanB) ∧
      ((runOp (e0.export [spanA]).1 (Op.assertOp "first_work" ["x"])).1 =
          (e0.export [spanA]).1 ∧
        ((runOp (e0.export [spanA]).1
              (Op.assertOp "first_work" ["x"])).1.export [spanB]).1.top_span =
          some ⟨some spanB⟩) :=
  ⟨rfl, rfl,
    export_overwrites_after_consume (e0.export [spanA]).1 spanA spanB
      "first_work" ["x"] [spanB] rfl rfl⟩

/-- C4: given a captured span, the assertion helper raises an assertion
failure exactly when the span name differs from the expected function name
or some expected attribute key is absent from the span's attribute keys;
the right-hand side mentions only names and keys, so attribute values are
never checked. -/
theorem assert_fails_iff_name_or_key
    (e : JsonObjectSpanExporter) (span : ReadableSpan)
    (fn : String) (args : List String)
    (h : e.top_span = some ⟨some span⟩) :
    (asserting_span_exporter e fn args = AssertOutcome.assertionError ↔
      (span.name ≠ fn ∨ ∃ k ∈ args, hasKey span.attributes k = false)) := by
  have hgoal : asserting_span_exporter e fn args =
      (if span.name = fn ∧ args.all (hasKey span.attributes) then
        AssertOutcome.passed else AssertOutcome.assertionError) := by
    unfold asserting_span_exporter
    rw [h]
    rfl
  rw [hgoal]
  split
  case isTrue hcond =>
    obtain ⟨hname, hall⟩ := hcond
    rw [List.all_eq_true] at hall
    constructor
    · intro hcontra; cases hcontra
    · rintro (hn | ⟨k, hk, hkey⟩)
      · exact absurd hname hn
      · rw [hall k hk] at hkey; cases hkey
  case isFalse hcond =>
    constructor
    · intro _
      by_cases hname : span.name = fn
      · right
        have hall : ¬ (args.all (hasKey span.attributes) = true) := fun hb =>
          hcond ⟨hname, hb⟩
        rw [List.all_eq_true] at hall
        push_neg at hall
        obtain ⟨k, hk, hkey⟩ := hall
        exact ⟨k, hk, by simpa using hkey⟩
      · exact Or.inl hname
    · intro _; rfl

/-- Witness for C4: with `spanA` captured, expecting the name
`"other_name"` makes the helper fail, matching the right-hand side. -/
theorem assert_fails_iff_name_or_key_witness :
    ((e0.export [spanA]).1.top_span = some ⟨some spanA⟩) ∧
      (asserting_span_exporter (e0.export [spanA]).1 "other_name" ["x"] =
          AssertOutcome.assertionError ↔
        (spanA.name ≠ "other_name" ∨
          ∃ k ∈ ["x"], hasKey spanA.attributes k = false)) :=
  ⟨rfl,
    assert_fails_iff_name_or_key (e0.export [spanA]).1 spanA "other_name"
      ["x"] rfl⟩

/-- C9: the completed-cell invariant holds at construction, is preserved by
`export` on non-empty batches, the flush and assertion operations leave the
state untouched, and under the invariant the helper's blocking read never
hits its timeout branch. -/
theorem completed_invariant
    (sn : Option String) (o : Option Nat) (fmt : Option (ReadableSpan → String))
    (e : JsonObjectSpanExporter) (spans : List ReadableSpan)
    (fn : String) (args : List String) (t : Int)
    (hinv : completedInv e = true) (hs : spans ≠ []) :
    completedInv (JsonObjectSpanExporter.init sn o fmt) = true ∧
      completedInv ((e.export spans).1) = true ∧
      (runOp e (Op.flushOp t)).1 = e ∧
      (runOp e (Op.assertOp fn args)).1 = e ∧
      asserting_span_exporter e fn args ≠ AssertOutcome.timeoutError := by
  refine ⟨rfl, ?_, rfl, rfl, ?_⟩
  · rcases hgl : spans.getLast? with _ | s
    · exact absurd (List.getLast?_eq_none_iff.mp hgl) hs
    · have hc : cellReplaceable e.top_span = true := hinv
      simp [JsonObjectSpanExporter.export, hc, hgl, completedInv,
        Future.fresh, Future.set_result, Future.done]
  · unfold asserting_span_exporter
    rcases he : e.top_span with _ | f
    · simp
    · unfold completedInv at hinv
      rw [he] at hinv
      rcases hr : f.result? with _ | s
      · simp [Future.done, hr] at hinv
      · simp only [Future.result, hr]
        split <;> simp

/-- Witness for C9 at a state holding the completed `spanA`. -/
theorem completed_invariant_witness :
    completedInv (e0.export [spanA]).1 = true ∧
      ([spanB] ≠ ([] : List ReadableSpan)) ∧
      (completedInv (JsonObjectSpanExporter.init (some "Test") none none) =
          true ∧
        completedInv (((e0.export [spanA]).1.export [spanB]).1) = true ∧
        (runOp (e0.export [spanA]).1 (Op.flushOp 30000)).1 =
          (e0.export [spanA]).1 ∧
        (runOp (e0.export [spanA]).1 (Op.assertOp "first_work" ["x"])).1 =
          (e0.export [spanA]).1 ∧
        asserting_span_exporter (e0.export [spanA]).1 "first_work" ["x"] ≠
          AssertOutcome.timeoutError) :=
  ⟨rfl, List.cons_ne_nil spanB [],
    completed_invariant (some "Test") none none (e0.export [spanA]).1 [spanB]
      "first_work" ["x"] 30000 rfl (List.cons_ne_nil spanB [])⟩

end ObservabilityUtils
